import Mathlib

/-!
Verification development for the IUEC ERP repository.

The repository's shipped source is the React frontend
(`frontend/src/...`); the Django backend (rule engine, SoD guard,
financial gate, authorization middleware) is referenced by the
repository's documentation but its code is not part of the source tree
we verify.  Frontend functions are embedded shallowly: numeric cell
values become `Option ℚ` (with `none` for `null`/`undefined`, and JS
`NaN`/`±Infinity` folded into `none` exactly where `Number.isFinite`
guards the code), JS `x.toFixed(2)` rounding becomes `round2`, and
stateful React handlers become pure state-transition functions.
Components that exist only behind the REST API are modelled from the
specification and are marked as such in their doc comments.
-/

namespace IUEC

/-- Rounds a nonnegative rational to two decimals, as JS
`Number(x.toFixed(2))` does on the nonnegative finite values occurring
in the grade grids (round half away from zero coincides with
round half up there). -/
def round2 (q : ℚ) : ℚ := (⌊q * 100 + 1 / 2⌋ : ℤ) / 100

/-- Embeds a grade row's three editable numeric cells from
`Notes.tsx` (`GradeRow.cc/tp/exam`); `none` models a `null` or absent
cell value. -/
structure GradeCells where
  cc : Option ℚ
  tp : Option ℚ
  exam : Option ℚ
deriving DecidableEq

/-- Embeds `Number(row.x || 0)` from `Notes.tsx`: a `null`/`undefined`
cell is coerced to the number 0. -/
def jsNumOrZero (v : Option ℚ) : ℚ := v.getD 0

/-- Embeds the average computation of `Notes.tsx` (used identically in
the teacher branch of `fetchGrades`, the student branch, the `average`
column `valueGetter`, and `handleCellValueChanged`):
`cc`, `tp`, `exam` are coerced with `|| 0`, `count` counts the strictly
positive components, and the average is `(cc+tp+exam)/count` when
`count > 0` (else 0), rounded with `toFixed(2)`. -/
def notesAverage (g : GradeCells) : ℚ :=
  let c := jsNumOrZero g.cc
  let t := jsNumOrZero g.tp
  let e := jsNumOrZero g.exam
  let count : ℚ :=
    (if 0 < c then 1 else 0) + (if 0 < t then 1 else 0) + (if 0 < e then 1 else 0)
  let avg := if 0 < count then (c + t + e) / count else 0
  round2 avg

/-- Embeds `averageGetter` of the `GradeGrid` component (unnamed
part_013): the plain arithmetic mean `(cc + tp + exam) / 3`, rounded
with `toFixed(2)`. -/
def averageGetter (cc tp exam : ℚ) : ℚ := round2 ((cc + tp + exam) / 3)

/-- Embeds a `GradeGrid` row from part_013 (`GradeRow` there): three
numeric scores plus the `blocked` flag. -/
structure GridRow where
  cc : ℚ
  tp : ℚ
  exam : ℚ
  blocked : Bool
deriving DecidableEq

/-- Embeds `onCellValueChanged` of `GradeGrid` (part_013) restricted to
the edited row: the handler recomputes `blocked = row.tp < 10` on the
row held in state. -/
def onCellValueChanged (row : GridRow) : GridRow :=
  { row with blocked := decide (row.tp < 10) }

/-- Embeds the `valueParser` of the `cc`/`tp`/`exam` columns in
`Notes.tsx`: `Number(params.newValue)` is modelled as `Option ℚ`, where
`none` stands for a non-finite conversion result (`NaN` or
`±Infinity`, both rejected by `Number.isFinite`); a finite value is
kept only when `0 ≤ value ≤ 20`, anything else becomes `null`. -/
def valueParser (newValue : Option ℚ) : Option ℚ :=
  match newValue with
  | some x => if 0 ≤ x ∧ x ≤ 20 then some x else none
  | none => none

/-- Embeds the `User` state of `AuthContext.tsx`: email, the assigned
role list decoded from the token, and the currently active role. -/
structure User where
  email : String
  roles : List String
  activeRole : String
deriving DecidableEq

/-- Embeds the decoded JWT payload of `AuthContext.tsx`
(`JwtPayload`): each claim is optional.  `none` models a JS-falsy
claim value (absent, `undefined`, or the empty string, which the
source's `||` chains treat alike). -/
structure JwtPayload where
  email : Option String
  roles : Option (List String)
  roleActive : Option String
deriving DecidableEq

/-- Embeds the result type of `decodeToken` in `AuthContext.tsx`. -/
structure DecodedToken where
  email : String
  roles : List String
  activeRole : String
deriving DecidableEq

/-- Embeds `decodeToken` of `AuthContext.tsx` on an
already-base64-decoded payload: `email = decoded.email || ""`,
`roles = decoded.roles || []`, and
`activeRole = decoded.role_active || roles[0] || "ADMIN_SI"`. -/
def decodeToken (p : JwtPayload) : DecodedToken :=
  let roles := p.roles.getD []
  { email := p.email.getD ""
    roles := roles
    activeRole := p.roleActive.getD (roles.head?.getD "ADMIN_SI") }

/-- Embeds the user constructed by `AuthProvider.login` in
`AuthContext.tsx` after a successful token decode:
`roles = decoded.roles.length > 0 ? decoded.roles : ["ADMIN_SI"]` and
`activeRole = decoded.activeRole`. -/
def loginUser (p : JwtPayload) : User :=
  let d := decodeToken p
  { email := d.email
    roles := if d.roles.isEmpty then ["ADMIN_SI"] else d.roles
    activeRole := d.activeRole }

/-- Embeds the user restored by the `AuthProvider` mount effect in
`AuthContext.tsx`: a stored role from localStorage is used only when it
is a member of the decoded role list, otherwise the token's embedded
active role is used; the role-set fallback is as at login. -/
def restoreUser (p : JwtPayload) (storedRole : Option String) : User :=
  let d := decodeToken p
  let active :=
    match storedRole with
    | some s => if d.roles.contains s then s else d.activeRole
    | none => d.activeRole
  { email := d.email
    roles := if d.roles.isEmpty then ["ADMIN_SI"] else d.roles
    activeRole := active }

/-- Embeds `AuthProvider.setActiveRole` of `AuthContext.tsx`: the
active role is updated only when the requested role is in the user's
assigned role list; otherwise the user state is left untouched (the
source's `if` has no `else` branch and raises no error). -/
def setActiveRole (u : User) (r : String) : User :=
  if u.roles.contains r then { u with activeRole := r } else u

/-- Embeds the user-visible notification produced by
`RoleSwitcher.handleChange` (unnamed part_008). -/
inductive SwitchNotice where
  | success (role : String)
deriving DecidableEq

/-- Embeds `RoleSwitcher.handleChange` (unnamed part_008): it calls the
context's `setActiveRole` and then shows a success toast on every path
(token regenerated, regeneration failed, or no token at all); there is
no failure notification of any kind. -/
def handleChange (u : User) (r : String) : User × SwitchNotice :=
  (setActiveRole u r, .success r)

/-- Embeds the localStorage slots read by the request interceptor in
`services/api.ts`. -/
structure Storage where
  token : Option String
  roleActive : Option String
deriving DecidableEq

/-- Embeds the headers attached by the request interceptor in
`services/api.ts`. -/
structure RequestHeaders where
  authorization : Option String
  xRoleActive : Option String
deriving DecidableEq

/-- Embeds the request interceptor of `services/api.ts`: the stored
token becomes the `Authorization` header and the stored `role_active`
value becomes the `X-Role-Active` header, each attached whenever the
slot is non-empty — the interceptor performs no validation of the
stored role against any role set. -/
def requestInterceptor (s : Storage) : RequestHeaders :=
  { authorization := s.token.map (fun t => "Bearer " ++ t)
    xRoleActive := s.roleActive }

/-- Embeds the parsed `academic_rules_json` document handled by
`Faculties.handleSave` (unnamed part_013).  The source parses the text
with `JSON.parse` into an untyped `Record<string, unknown>`; we model
the parsed value as a flat list of string-keyed fields whose values
are numbers or strings, which covers every rule document the spec
describes. -/
inductive JsonField where
  | num (q : ℚ)
  | str (s : String)
deriving DecidableEq

/-- Flat JSON object: the shape `JSON.parse` yields for a rule
document. -/
def RuleJson : Type := List (String × JsonField)

/-- Outcome of `Faculties.handleSave` (unnamed part_013). -/
inductive SaveOutcome where
  | patched (d : List (String × JsonField))
  | saveError
deriving DecidableEq

/-- Embeds `Faculties.handleSave` (unnamed part_013): `JSON.parse` is
the only gate — `none` models text that fails to parse (the `catch`
branch); any successfully parsed document is sent to
`PATCH /api/programs/{id}/` unchanged, with no inspection of its
fields. -/
def handleSave (parsed : Option RuleJson) : SaveOutcome :=
  match parsed with
  | some d => .patched d
  | none => .saveError

/-- Reads the three component weights (`CC`, `TP`, `Exam`) out of a
parsed rule document and sums them, for stating what `handleSave`
fails to check. -/
def weightsSum (d : RuleJson) : ℚ :=
  (d.filterMap (fun kv =>
    match kv with
    | (k, .num q) => if k = "CC" ∨ k = "TP" ∨ k = "Exam" then some q else none
    | _ => none)).sum

/-- Modelled from the spec: moratorium lifecycle states
(`Active`, `Honored`, `Overdue`); the server-side Financial Gate is
backend code not present in the shipped source tree. -/
inductive MoratoriumStatus where
  | Active
  | Honored
  | Overdue
deriving DecidableEq

/-- Modelled from the spec: a moratorium (amount deferred, end date as
a day number, lifecycle status). -/
structure Moratorium where
  amountDeferred : ℚ
  endDate : ℕ
  status : MoratoriumStatus
deriving DecidableEq

/-- Modelled from the spec: scholarship lifecycle states. -/
inductive ScholarshipStatus where
  | Active
  | Suspended
  | Ended
deriving DecidableEq

/-- Modelled from the spec: a scholarship; `coversBalance` abstracts
"covering" (its amount or percentage covers the outstanding balance
for the current period). -/
structure Scholarship where
  status : ScholarshipStatus
  coversBalance : Bool
deriving DecidableEq

/-- Modelled from the spec: the effective financial status values. -/
inductive FinStatus where
  | OK
  | Blocked
  | Moratorium
deriving DecidableEq

/-- Modelled from the spec: whether an `Active` moratorium exists whose
end date is on or after the current date. -/
def hasCoveringMoratorium (today : ℕ) (ms : List Moratorium) : Bool :=
  ms.any (fun m => m.status = MoratoriumStatus.Active ∧ today ≤ m.endDate)

/-- Modelled from the spec: whether an `Active` covering scholarship
exists. -/
def hasCoveringScholarship (ss : List Scholarship) : Bool :=
  ss.any (fun s => s.status = ScholarshipStatus.Active ∧ s.coversBalance)

/-- Modelled from the spec: the Financial Gate's
`effectiveStatus(studentId)` — `Moratorium` when an `Active` moratorium
exists and the current date is on or before its end date (overriding a
`Blocked` finding), `Blocked` when the balance is positive and no
covering moratorium or scholarship exists, `OK` otherwise.  The
backend implementing this gate is not in the shipped source tree. -/
def effectiveStatus (today : ℕ) (balance : ℚ) (ms : List Moratorium)
    (ss : List Scholarship) : FinStatus :=
  if hasCoveringMoratorium today ms then FinStatus.Moratorium
  else if 0 < balance ∧ ¬ hasCoveringScholarship ss then FinStatus.Blocked
  else FinStatus.OK

/-- Modelled from the spec: result of a student's read request for
their own grades as mediated by the Authorization Middleware. -/
inductive GradeAccess where
  | grades (values : List ℚ)
  | financialBlock
deriving DecidableEq

/-- Modelled from the spec: the Authorization Middleware's financial
gate on a student's read access to their own grades — students whose
effective status is `Blocked` are denied with `FinancialBlock`; the
middleware is backend code not present in the shipped source tree (the
student branch of `fetchGrades` in `Notes.tsx` is only its caller). -/
def readOwnGrades (today : ℕ) (balance : ℚ) (ms : List Moratorium)
    (ss : List Scholarship) (values : List ℚ) : GradeAccess :=
  match effectiveStatus today balance ms ss with
  | FinStatus.Blocked => GradeAccess.financialBlock
  | _ => GradeAccess.grades values

/-- Modelled from the spec: outcome of the SoD Guard's `check`. -/
inductive SodOutcome where
  | Allowed
  | Blocked
deriving DecidableEq

/-- Modelled from the spec: an append-only audit record written by the
SoD Guard (actor identity, action kind, target, outcome). -/
structure AuditLogEntry where
  actor : String
  action : String
  target : String
  outcome : SodOutcome
deriving DecidableEq

/-- Modelled from the spec: the SoD Guard's
`check(action, actor, target)` — blocked exactly when the actor's
identity equals the original submitter/target of the action.  The SoD
Guard is backend code not present in the shipped source tree. -/
def sodCheck (actor submitter : String) : SodOutcome :=
  if actor = submitter then SodOutcome.Blocked else SodOutcome.Allowed

/-- Modelled from the spec: the SoD Guard's check followed by its
audit write — on block it appends exactly one entry with
outcome `Blocked`; on allow it appends one entry with outcome
`Allowed` before the action proceeds. -/
def sodCheckAudited (action actor submitter : String)
    (log : List AuditLogEntry) : SodOutcome × List AuditLogEntry :=
  match sodCheck actor submitter with
  | SodOutcome.Blocked =>
      (SodOutcome.Blocked, log ++ [⟨actor, action, submitter, SodOutcome.Blocked⟩])
  | SodOutcome.Allowed =>
      (SodOutcome.Allowed, log ++ [⟨actor, action, submitter, SodOutcome.Allowed⟩])

/-- Counts the audit entries with outcome `Blocked`. -/
def blockedCount (log : List AuditLogEntry) : ℕ :=
  (log.filter (fun e => e.outcome = SodOutcome.Blocked)).length

/-- C1: the claim asserts that for scores CC=12, TP=9, Exam=14 the
computed average is the weighted value 12.8; both average computations
shipped in the source (`Notes.tsx` and the part_013 grade grid)
instead produce the plain arithmetic mean 11.67, so the claim is false
at this input. -/
theorem C1_counterexample :
    notesAverage ⟨some 12, some 9, some 14⟩ ≠ 64 / 5 ∧
    averageGetter 12 9 14 ≠ 64 / 5 := by
  constructor
  · norm_num [notesAverage, jsNumOrZero, round2, Int.floor_eq_iff]
  · norm_num [averageGetter, round2, Int.floor_eq_iff]

/-- C1 (amended): for scores CC=12, TP=9, Exam=14 both shipped average
computations produce the arithmetic mean 11.67 (not the weighted
12.8), and editing the row recomputes `blocked = tp < 10`, which is
true because TP=9 is below the floor of 10 — so the blocking component
still overrides the average. -/
theorem C1_scenarioA :
    notesAverage ⟨some 12, some 9, some 14⟩ = 1167 / 100 ∧
    averageGetter 12 9 14 = 1167 / 100 ∧
    (onCellValueChanged ⟨12, 9, 14, false⟩).blocked = true := by
  refine ⟨?_, ?_, ?_⟩
  · norm_num [notesAverage, jsNumOrZero, round2, Int.floor_eq_iff]
  · norm_num [averageGetter, round2, Int.floor_eq_iff]
  · simp [onCellValueChanged]
    norm_num

/-- C2: the claim asserts a missing grade entry is counted as the
score 0 without being excluded from the average.  With CC=12, TP
missing, Exam=14 the source computes 13 — the missing component is
dropped from the divisor — while counting it as 0 over all three
components would give 8.67 (arithmetic mean, as the source computes)
or 10.6 (the spec's weighted average), so the claim is false at this
input. -/
theorem C2_counterexample :
    notesAverage ⟨some 12, none, some 14⟩ = 13 ∧
    round2 ((12 + 0 + 14) / 3) ≠ 13 ∧
    round2 (3 / 10 * 12 + 2 / 10 * 0 + 5 / 10 * 14) ≠ 13 := by
  refine ⟨?_, ?_, ?_⟩
  · norm_num [notesAverage, jsNumOrZero, round2, Int.floor_eq_iff]
  · norm_num [round2, Int.floor_eq_iff]
  · norm_num [round2, Int.floor_eq_iff]

/-- C2 (amended): a missing grade entry is coerced to 0, behaves
exactly like an explicit score of 0, and is excluded from the divisor:
with the other two components strictly positive, the average is the
mean of just those two.  A missing entry is not fatal. -/
theorem C2_missing_excluded (c e : ℚ) (hc : 0 < c) (he : 0 < e) :
    notesAverage ⟨some c, none, some e⟩ = round2 ((c + e) / 2) ∧
    notesAverage ⟨some c, none, some e⟩ = notesAverage ⟨some c, some 0, some e⟩ := by
  constructor
  · simp only [notesAverage, jsNumOrZero, Option.getD]
    norm_num [hc, he]
  · simp only [notesAverage, jsNumOrZero, Option.getD]

/-- C2 witness: the amended statement holds at CC=12, Exam=14. -/
theorem C2_missing_excluded_witness :
    (0 : ℚ) < 12 ∧ (0 : ℚ) < 14 ∧
    (notesAverage ⟨some 12, none, some 14⟩ = round2 ((12 + 14) / 2) ∧
     notesAverage ⟨some 12, none, some 14⟩ = notesAverage ⟨some 12, some 0, some 14⟩) :=
  ⟨by norm_num, by norm_num, C2_missing_excluded 12 14 (by norm_num) (by norm_num)⟩

/-- C3: the claim asserts a role switch to an unassigned role fails
with `RoleNotAssigned`.  For a user whose only role is `USER_STUDENT`,
requesting `RECTEUR` leaves the state unchanged but the role switcher
still emits a success notification — no `RoleNotAssigned` (nor any
other) failure exists anywhere on this path, so the claim is false at
this input. -/
theorem C3_counterexample :
    handleChange ⟨"etudiant@iuec.cm", ["USER_STUDENT"], "USER_STUDENT"⟩ "RECTEUR" =
      (⟨"etudiant@iuec.cm", ["USER_STUDENT"], "USER_STUDENT"⟩,
       SwitchNotice.success "RECTEUR") := by
  rfl

/-- C3 (amended): the role switch updates the active role exactly when
the requested role is in the assigned set; otherwise the prior user
state (credential) remains untouched, and in every case the switcher
reports success — it never surfaces a `RoleNotAssigned` failure. -/
theorem C3_switch (u : User) (r : String) :
    (u.roles.contains r = true → setActiveRole u r = { u with activeRole := r }) ∧
    (u.roles.contains r = false → setActiveRole u r = u) ∧
    handleChange u r = (setActiveRole u r, SwitchNotice.success r) := by
  refine ⟨fun h => ?_, fun h => ?_, rfl⟩
  · have h' : r ∈ u.roles := by simpa using h
    simp [setActiveRole, h']
  · have h' : r ∉ u.roles := by simpa using h
    simp [setActiveRole, h']

/-- C3 witness: the amended statement instantiated for a student
requesting the unassigned role `RECTEUR`. -/
theorem C3_switch_witness :
    (["USER_STUDENT"].contains "RECTEUR" = false) ∧
    setActiveRole ⟨"etudiant@iuec.cm", ["USER_STUDENT"], "USER_STUDENT"⟩ "RECTEUR" =
      ⟨"etudiant@iuec.cm", ["USER_STUDENT"], "USER_STUDENT"⟩ :=
  ⟨by rfl,
   (C3_switch ⟨"etudiant@iuec.cm", ["USER_STUDENT"], "USER_STUDENT"⟩ "RECTEUR").2.1 (by rfl)⟩

/-- C4: the claim asserts a client-supplied active-role value is
accepted only when it belongs to the credential's assigned roles, the
request failing with `RoleMismatch` otherwise.  The request
interceptor attaches the persisted `role_active` value (here
`RECTEUR`, not among the assigned roles `[USER_STUDENT]`) as the
`X-Role-Active` header without consulting any role set, and a stored
role failing the membership check at context restore silently falls
back to the token's embedded role instead of failing — no
`RoleMismatch` exists in the source, so the claim is false at this
input. -/
theorem C4_counterexample :
    (requestInterceptor ⟨some "jwt", some "RECTEUR"⟩).xRoleActive = some "RECTEUR" ∧
    (["USER_STUDENT"] : List String).contains "RECTEUR" = false ∧
    (restoreUser ⟨some "etudiant@iuec.cm", some ["USER_STUDENT"], none⟩
      (some "RECTEUR")).activeRole = "USER_STUDENT" := by
  refine ⟨rfl, rfl, rfl⟩

/-- C4 (amended): the interceptor forwards whatever `role_active`
value is persisted, unvalidated; only the context-restore path checks
the stored role for membership in the decoded role list, using it when
it is a member and silently falling back to the token's embedded
active role otherwise — never failing with `RoleMismatch`. -/
theorem C4_interceptor (s : Storage) (p : JwtPayload) (st : String) :
    (requestInterceptor s).xRoleActive = s.roleActive ∧
    ((decodeToken p).roles.contains st = true →
      (restoreUser p (some st)).activeRole = st) ∧
    ((decodeToken p).roles.contains st = false →
      (restoreUser p (some st)).activeRole = (decodeToken p).activeRole) := by
  refine ⟨rfl, fun h => ?_, fun h => ?_⟩
  · have h' : st ∈ (decodeToken p).roles := by simpa using h
    simp [restoreUser, h']
  · have h' : st ∉ (decodeToken p).roles := by simpa using h
    simp [restoreUser, h']

/-- C4 witness: the amended statement instantiated for a student
credential with the unassigned stored role `RECTEUR`. -/
theorem C4_interceptor_witness :
    ((decodeToken ⟨some "etudiant@iuec.cm", some ["USER_STUDENT"], none⟩).roles.contains
      "RECTEUR" = false) ∧
    (restoreUser ⟨some "etudiant@iuec.cm", some ["USER_STUDENT"], none⟩
      (some "RECTEUR")).activeRole =
      (decodeToken ⟨some "etudiant@iuec.cm", some ["USER_STUDENT"], none⟩).activeRole :=
  ⟨by rfl,
   (C4_interceptor ⟨none, none⟩ ⟨some "etudiant@iuec.cm", some ["USER_STUDENT"], none⟩
     "RECTEUR").2.2 (by rfl)⟩

/-- C5: the claim asserts the engine rejects any rule document whose
weights do not sum to 1.0 with `InvalidRuleDocument` instead of
accepting it.  The only rule-document handling in the source,
`Faculties.handleSave`, accepts this document whose weights sum to 1.5
after `JSON.parse` alone and patches it to the server — no weight
validation and no `InvalidRuleDocument` outcome exist, so the claim is
false at this input. -/
theorem C5_counterexample :
    weightsSum [("CC", JsonField.num (1 / 2)), ("TP", JsonField.num (1 / 2)),
      ("Exam", JsonField.num (1 / 2)), ("elimination", JsonField.num 10)] = 3 / 2 ∧
    (3 / 2 : ℚ) ≠ 1 ∧
    handleSave (some [("CC", JsonField.num (1 / 2)), ("TP", JsonField.num (1 / 2)),
      ("Exam", JsonField.num (1 / 2)), ("elimination", JsonField.num 10)]) =
      SaveOutcome.patched [("CC", JsonField.num (1 / 2)), ("TP", JsonField.num (1 / 2)),
        ("Exam", JsonField.num (1 / 2)), ("elimination", JsonField.num 10)] := by
  refine ⟨?_, by norm_num, rfl⟩
  simp [weightsSum, List.filterMap]
  norm_num

/-- C5 (amended): every rule document that parses as JSON is accepted
and patched unchanged, whatever its weights sum to; only a parse
failure is rejected, and no `InvalidRuleDocument` outcome exists in
the source. -/
theorem C5_save_unvalidated :
    (∀ d : RuleJson, handleSave (some d) = SaveOutcome.patched d) ∧
    handleSave none = SaveOutcome.saveError :=
  ⟨fun _ => rfl, rfl⟩

/-- C6: the effective financial status is `Moratorium` exactly when an
`Active` moratorium exists whose end date is on or after the current
date (overriding a `Blocked` finding), `Blocked` exactly when no such
moratorium exists, the balance is positive and no covering scholarship
exists, and `OK` otherwise; in particular Scenario D (balance 150000,
`Active` moratorium ending in the future) yields `Moratorium`. -/
theorem C6_effectiveStatus :
    (∀ (today : ℕ) (b : ℚ) (ms : List Moratorium) (ss : List Scholarship),
      (effectiveStatus today b ms ss = FinStatus.Moratorium ↔
        hasCoveringMoratorium today ms = true) ∧
      (effectiveStatus today b ms ss = FinStatus.Blocked ↔
        (hasCoveringMoratorium today ms = false ∧ 0 < b ∧
          hasCoveringScholarship ss = false)) ∧
      (effectiveStatus today b ms ss = FinStatus.OK ↔
        (hasCoveringMoratorium today ms = false ∧
          (b ≤ 0 ∨ hasCoveringScholarship ss = true)))) ∧
    effectiveStatus 100 150000 [⟨150000, 200, MoratoriumStatus.Active⟩] [] =
      FinStatus.Moratorium := by
  constructor
  · intro today b ms ss
    unfold effectiveStatus
    rcases hm : hasCoveringMoratorium today ms <;>
      rcases hs : hasCoveringScholarship ss <;>
      rcases le_or_lt b 0 with hb | hb <;>
      simp [hm, hs, hb, not_lt.mpr, le_of_lt]
  · simp [effectiveStatus, hasCoveringMoratorium]

/-- C7: a student whose effective financial status is `Blocked` is
denied read access to their own grades with `FinancialBlock` instead
of receiving the grades. -/
theorem C7_financialBlock (today : ℕ) (b : ℚ) (ms : List Moratorium)
    (ss : List Scholarship) (values : List ℚ)
    (h : effectiveStatus today b ms ss = FinStatus.Blocked) :
    readOwnGrades today b ms ss values = GradeAccess.financialBlock := by
  unfold readOwnGrades
  rw [h]

/-- C7 witness: Scenario C — balance 150000, no moratorium, no
scholarship: the status is `Blocked` and the grade read is denied. -/
theorem C7_financialBlock_witness :
    effectiveStatus 100 150000 [] [] = FinStatus.Blocked ∧
    readOwnGrades 100 150000 [] [] [12] = GradeAccess.financialBlock := by
  have h : effectiveStatus 100 150000 ([] : List Moratorium)
      ([] : List Scholarship) = FinStatus.Blocked := by
    simp [effectiveStatus, hasCoveringMoratorium, hasCoveringScholarship]
  exact ⟨h, C7_financialBlock 100 150000 [] [] [12] h⟩

/-- C8: when the actor's identity equals the submitter/target of a
sensitive action, the SoD check is `Blocked` and exactly one new audit
entry with outcome `Blocked` is recorded; a different actor performing
the same validation is `Allowed` (and records no `Blocked` entry). -/
theorem C8_sod (action actor submitter : String) (log : List AuditLogEntry) :
    (actor = submitter →
      (sodCheckAudited action actor submitter log).1 = SodOutcome.Blocked ∧
      blockedCount (sodCheckAudited action actor submitter log).2 =
        blockedCount log + 1) ∧
    (actor ≠ submitter →
      (sodCheckAudited action actor submitter log).1 = SodOutcome.Allowed ∧
      blockedCount (sodCheckAudited action actor submitter log).2 =
        blockedCount log) := by
  constructor
  · intro h
    simp [sodCheckAudited, sodCheck, h, blockedCount]
  · intro h
    simp [sodCheckAudited, sodCheck, h, blockedCount]

/-- C8 witness: Scenario E — Validator A validating their own
submission is blocked with one `Blocked` audit entry; Validator B
validating it succeeds. -/
theorem C8_sod_witness :
    ("ValidatorA" : String) = "ValidatorA" ∧ ("ValidatorB" : String) ≠ "ValidatorA" ∧
    ((sodCheckAudited "registration-validation" "ValidatorA" "ValidatorA" []).1 =
        SodOutcome.Blocked ∧
      blockedCount
        (sodCheckAudited "registration-validation" "ValidatorA" "ValidatorA" []).2 =
        blockedCount ([] : List AuditLogEntry) + 1) ∧
    (sodCheckAudited "registration-validation" "ValidatorB" "ValidatorA" []).1 =
      SodOutcome.Allowed :=
  ⟨rfl, by simp,
   (C8_sod "registration-validation" "ValidatorA" "ValidatorA" []).1 rfl,
   ((C8_sod "registration-validation" "ValidatorB" "ValidatorA" []).2 (by simp)).1⟩

/-- C9: every value committed through the grade-entry `valueParser` is
either `null` or a finite number between 0 and 20 inclusive; any other
input becomes `null`. -/
theorem C9_valueParser (newValue : Option ℚ) :
    valueParser newValue = none ∨
    ∃ x, valueParser newValue = some x ∧ 0 ≤ x ∧ x ≤ 20 := by
  rcases newValue with _ | x
  · exact Or.inl rfl
  · by_cases h : 0 ≤ x ∧ x ≤ 20
    · exact Or.inr ⟨x, by simp [valueParser, h], h.1, h.2⟩
    · exact Or.inl (by simp [valueParser, h])

/-- C10: the claim asserts that a credential with an empty role list
yields active role `ADMIN_SI`.  With an empty role list but a
`role_active` claim of `DAF`, the assigned set falls back to
`[ADMIN_SI]` yet the active role becomes `DAF` (at login and at
restore alike), so the claim is false at this input. -/
theorem C10_counterexample :
    (loginUser ⟨some "u@iuec.cm", some [], some "DAF"⟩).roles = ["ADMIN_SI"] ∧
    (loginUser ⟨some "u@iuec.cm", some [], some "DAF"⟩).activeRole = "DAF" ∧
    ("DAF" : String) ≠ "ADMIN_SI" ∧
    (restoreUser ⟨some "u@iuec.cm", some [], some "DAF"⟩ none).activeRole = "DAF" := by
  exact ⟨rfl, rfl, by simp, rfl⟩

/-- C10 (amended): when the decoded credential's role list is empty or
absent, the client assigns the role set `[ADMIN_SI]` at login and at
restore; the active role is the token's `role_active` claim when one
is present (even though it is not in the assigned set) and only
defaults to `ADMIN_SI` when that claim is also absent. -/
theorem C10_emptyRoles (p : JwtPayload) (st : Option String)
    (h : p.roles.getD [] = []) :
    (loginUser p).roles = ["ADMIN_SI"] ∧
    (restoreUser p st).roles = ["ADMIN_SI"] ∧
    (loginUser p).activeRole = p.roleActive.getD "ADMIN_SI" ∧
    (restoreUser p st).activeRole = p.roleActive.getD "ADMIN_SI" := by
  rcases st with _ | s <;>
    simp [loginUser, restoreUser, decodeToken, h]

/-- C10 witness: the amended statement at a payload with no roles and
no `role_active` claim: everything defaults to `ADMIN_SI`. -/
theorem C10_emptyRoles_witness :
    ((⟨some "u@iuec.cm", none, none⟩ : JwtPayload).roles.getD [] = []) ∧
    (loginUser ⟨some "u@iuec.cm", none, none⟩).roles = ["ADMIN_SI"] ∧
    (loginUser ⟨some "u@iuec.cm", none, none⟩).activeRole =
      (⟨some "u@iuec.cm", none, none⟩ : JwtPayload).roleActive.getD "ADMIN_SI" :=
  ⟨rfl, (C10_emptyRoles ⟨some "u@iuec.cm", none, none⟩ none rfl).1,
   (C10_emptyRoles ⟨some "u@iuec.cm", none, none⟩ none rfl).2.2.1⟩

end IUEC
